import Mathlib

/-!
Shallow embedding of the project-approval workflow backend
(`src/server/src/handlers/`), covering the review/approval state machine:
`submitProject`, `submitReview`, `approveProject`, `rejectProject`,
over the data model of `db/schema.ts`.

Database state is modelled as lists of rows; each handler is a function
`DB → ... → DB × Except String result` returning the post-call state
(the handlers issue independent statements with no transaction, so
mutations performed before a thrown error persist) together with either
the returned row or the thrown error message. Serial ids and
`defaultNow()` timestamps of inserted notification/history rows are
database-generated and not modelled; `new Date()` is modelled by an
explicit `now : Nat` parameter.
-/

namespace ProjectRiskApproval

/-- `user_role` enum of `db/schema.ts`. -/
inductive Role where
  | project_proposer
  | reviewer
  | director
  | system_administrator
deriving DecidableEq, Repr

/-- `project_status` enum of `db/schema.ts`. -/
inductive ProjectStatus where
  | draft
  | submitted
  | under_review
  | approved
  | rejected
  | returned
deriving DecidableEq, Repr

/-- `review_decision` enum of `db/schema.ts`; `ret` models the source
value `return`, which is a reserved word in Lean. -/
inductive Decision where
  | approve
  | reject
  | ret
deriving DecidableEq, Repr

/-- `risk_impact_level` enum of `db/schema.ts`. -/
inductive RiskLevel where
  | low
  | medium
  | high
deriving DecidableEq, Repr

/-- `notification_type` enum of `db/schema.ts`. -/
inductive NotificationType where
  | project_submitted
  | review_assigned
  | review_completed
  | project_approved
  | project_rejected
  | project_returned
  | comment_added
deriving DecidableEq, Repr

/-- Row of `usersTable`. -/
structure User where
  id : Nat
  email : String
  name : String
  role : Role
  is_active : Bool
deriving DecidableEq, Repr

/-- Row of `projectsTable` (`estimated_cost` is `numeric(12,2)`, which the
driver hands to the handlers as a string). -/
structure Project where
  id : Nat
  name : String
  description : String
  objective : String
  estimated_cost : String
  target_time : String
  status : ProjectStatus
  proposer_id : Nat
  created_at : Nat
  updated_at : Nat
deriving DecidableEq, Repr

/-- Row of `reviewsTable`; `submitted_at = none` means the review is pending. -/
structure Review where
  id : Nat
  project_id : Nat
  reviewer_id : Nat
  decision : Option Decision
  justification : Option String
  risk_identification : Option String
  risk_assessment : Option RiskLevel
  risk_mitigation : Option String
  comments : Option String
  submitted_at : Option Nat
  created_at : Nat
  updated_at : Nat
deriving DecidableEq, Repr

/-- Row of `projectReviewersTable`. -/
structure ProjectReviewer where
  id : Nat
  project_id : Nat
  reviewer_id : Nat
  assigned_at : Nat
deriving DecidableEq, Repr

/-- Row of `notificationsTable` (serial id and `created_at` are
database-generated, not modelled). -/
structure Notification where
  user_id : Nat
  type : NotificationType
  title : String
  message : String
  project_id : Option Nat
  is_read : Bool
deriving DecidableEq, Repr

/-- Row of `projectHistoryTable` (serial id and `created_at` are
database-generated, not modelled). -/
structure ProjectHistory where
  project_id : Nat
  user_id : Nat
  action : String
  details : Option String
deriving DecidableEq, Repr

/-- The database state the four handlers read and write. -/
structure DB where
  users : List User
  projects : List Project
  projectReviewers : List ProjectReviewer
  reviews : List Review
  notifications : List Notification
  history : List ProjectHistory
deriving DecidableEq, Repr

/-- `submitReviewInputSchema` of `schema.ts` (`decision` is non-nullable
there; `comments` is optional). -/
structure SubmitReviewInput where
  id : Nat
  decision : Decision
  justification : String
  risk_identification : String
  risk_assessment : RiskLevel
  risk_mitigation : String
  comments : Option String
deriving DecidableEq, Repr

/-- The string a `review_decision` value interpolates to in messages. -/
def decisionText : Decision → String
  | .approve => "approve"
  | .reject => "reject"
  | .ret => "return"

/-- The string a `project_status` value interpolates to in messages. -/
def statusText : ProjectStatus → String
  | .draft => "draft"
  | .submitted => "submitted"
  | .under_review => "under_review"
  | .approved => "approved"
  | .rejected => "rejected"
  | .returned => "returned"

/-- The string a `user_role` value interpolates to in messages. -/
def roleText : Role → String
  | .project_proposer => "project_proposer"
  | .reviewer => "reviewer"
  | .director => "director"
  | .system_administrator => "system_administrator"

/-- `newStatus.charAt(0).toUpperCase() + newStatus.slice(1)` of
submit_review.ts line 172. -/
def statusTitleWord : ProjectStatus → String
  | .draft => "Draft"
  | .submitted => "Submitted"
  | .under_review => "Under_review"
  | .approved => "Approved"
  | .rejected => "Rejected"
  | .returned => "Returned"

/-- Count of reviews with a given decision for one project's review set
(submit_review.ts lines 93–127: `eq(reviewsTable.decision, d)`; a null
decision matches none of the three counts). -/
def decisionCount (rs : List Review) (d : Decision) : Nat :=
  (rs.filter (fun r => r.decision == some d)).length

/-- `pendingReviews` of submit_review.ts lines 129–139: count of reviews
whose `submitted_at` IS NULL. -/
def pendingReviewCount (rs : List Review) : Nat :=
  (rs.filter (fun r => r.submitted_at == none)).length

/-- Completeness test of submit_review.ts line 142: the review round is
complete when no review of the project is pending. -/
def aggregationComplete (rs : List Review) : Bool :=
  pendingReviewCount rs == 0

/-- Resolution logic of submit_review.ts lines 143–155, run only when the
round is complete: `newStatus` starts at `'approved'` and
`notificationMessage` at the empty string, then the if/else-if chain
overwrites them. -/
def aggregateResolve (projectName : String) (rs : List Review) :
    ProjectStatus × String :=
  let totalReviews := rs.length
  let approvedReviews := decisionCount rs .approve
  let rejectedReviews := decisionCount rs .reject
  let returnedReviews := decisionCount rs .ret
  if rejectedReviews > 0 then
    (.rejected,
     "Your project \"" ++ projectName ++ "\" has been rejected by reviewers")
  else if returnedReviews > 0 then
    (.returned,
     "Your project \"" ++ projectName ++
       "\" has been returned by reviewers for revisions")
  else if approvedReviews == totalReviews then
    (.approved,
     "Your project \"" ++ projectName ++ "\" has been approved by all reviewers")
  else
    (.approved, "")

/-- The notification type chosen for the proposer's final-status
notification (submit_review.ts lines 170–171). -/
def statusNotifType (s : ProjectStatus) : NotificationType :=
  if s == .approved then .project_approved
  else if s == .rejected then .project_rejected
  else .project_returned

/-- Active users with a given role (submit_review.ts lines 181–199). -/
def activeWithRole (users : List User) (role : Role) : List User :=
  users.filter (fun u => u.role == role && u.is_active)

/-- The `db.update(reviewsTable).set({...})` of submit_review.ts
lines 27–40 applied to one row. -/
def submitReviewUpdate (input : SubmitReviewInput) (now : Nat) (r : Review) :
    Review :=
  { r with
    decision := some input.decision
    justification := some input.justification
    risk_identification := some input.risk_identification
    risk_assessment := some input.risk_assessment
    risk_mitigation := some input.risk_mitigation
    comments := input.comments
    submitted_at := some now
    updated_at := now }

/-- `submitReview` of submit_review.ts. The returned `DB` is the state
after the call, including mutations performed before a thrown error
(each statement commits independently; there is no transaction). -/
def submitReview (db : DB) (now : Nat) (input : SubmitReviewInput) :
    DB × Except String Review :=
  match db.reviews.find? (fun r => r.id == input.id) with
  | none =>
      (db, .error ("Review with id " ++ toString input.id ++ " not found"))
  | some existingReview =>
    let db1 : DB :=
      { db with
        reviews := db.reviews.map (fun r =>
          if r.id == input.id then submitReviewUpdate input now r else r) }
    let updatedReview := submitReviewUpdate input now existingReview
    match db1.projects.find? (fun p => p.id == existingReview.project_id) with
    | none =>
        (db1, .error ("Project with id " ++
          toString existingReview.project_id ++ " not found"))
    | some project =>
      let reviewerName :=
        match db1.users.find? (fun u => u.id == existingReview.reviewer_id) with
        | some u => u.name
        | none => "Unknown Reviewer"
      let db2 : DB :=
        { db1 with
          notifications := db1.notifications ++
            [{ user_id := project.proposer_id
               type := .review_completed
               title := "Review Completed"
               message := reviewerName ++
                 " has completed their review of your project \"" ++
                 project.name ++ "\" with decision: " ++
                 decisionText input.decision
               project_id := some project.id
               is_read := false }] }
      let db3 : DB :=
        { db2 with
          history := db2.history ++
            [{ project_id := project.id
               user_id := existingReview.reviewer_id
               action := "Review submitted with decision: " ++
                 decisionText input.decision
               details := some ("Justification: " ++ input.justification) }] }
      let projReviews :=
        db3.reviews.filter (fun r => r.project_id == project.id)
      if aggregationComplete projReviews then
        let resolved := aggregateResolve project.name projReviews
        let newStatus := resolved.1
        let notificationMessage := resolved.2
        let db4 : DB :=
          { db3 with
            projects := db3.projects.map (fun p =>
              if p.id == project.id then
                { p with status := newStatus, updated_at := now }
              else p) }
        let db5 : DB :=
          { db4 with
            notifications := db4.notifications ++
              [{ user_id := project.proposer_id
                 type := statusNotifType newStatus
                 title := "Project " ++ statusTitleWord newStatus
                 message := notificationMessage
                 project_id := some project.id
                 is_read := false }] }
        let allAdmins := activeWithRole db5.users .director ++
          activeWithRole db5.users .system_administrator
        let db6 : DB :=
          if newStatus == .approved then
            { db5 with
              notifications := db5.notifications ++
                allAdmins.map (fun admin =>
                  { user_id := admin.id
                    type := .project_approved
                    title := "Project Approved"
                    message := "Project \"" ++ project.name ++
                      "\" has been approved by all reviewers and is ready for implementation"
                    project_id := some project.id
                    is_read := false }) }
          else db5
        let db7 : DB :=
          { db6 with
            history := db6.history ++
              [{ project_id := project.id
                 user_id := existingReview.reviewer_id
                 action := "Project status changed to " ++ statusText newStatus
                 details := some ("All reviews completed. Final status: " ++
                   statusText newStatus) }] }
        (db7, .ok updatedReview)
      else
        (db3, .ok updatedReview)

/-- Error message of approve_project.ts line 88. -/
def insufficientApproveMsg : String :=
  "Insufficient permissions: only directors and system administrators can approve projects"

/-- Error message of approve_project.ts line 210. -/
def insufficientRejectMsg : String :=
  "Insufficient permissions: only directors and system administrators can reject projects"

/-- `approveProject` of approve_project.ts: role check, project load,
state check, review-aggregation preconditions, then mutation, then
notifications and history. Every error path precedes the mutation. -/
def approveProject (db : DB) (now : Nat) (projectId userId : Nat) :
    DB × Except String Project :=
  match db.users.find? (fun u => u.id == userId) with
  | none => (db, .error "User not found")
  | some user =>
    if !(user.role == .director || user.role == .system_administrator) then
      (db, .error insufficientApproveMsg)
    else
      match db.projects.find? (fun p => p.id == projectId) with
      | none => (db, .error "Project not found")
      | some currentProject =>
        if currentProject.status != .under_review then
          (db, .error ("Project cannot be approved from status: " ++
            statusText currentProject.status))
        else
          let reviews := db.reviews.filter (fun r => r.project_id == projectId)
          if reviews.length == 0 then
            (db, .error "No reviews found for this project")
          else if (reviews.filter (fun r => r.submitted_at == none)).length > 0 then
            (db, .error "Cannot approve project: some reviews are not yet submitted")
          else if (reviews.filter (fun r => r.decision == some .reject)).length > 0 then
            (db, .error "Cannot approve project: some reviews have rejected the project")
          else if (reviews.filter (fun r => r.decision == some .ret)).length > 0 then
            (db, .error "Cannot approve project: some reviews have returned the project")
          else
            let db1 : DB :=
              { db with
                projects := db.projects.map (fun p =>
                  if p.id == projectId then
                    { p with status := .approved, updated_at := now }
                  else p) }
            let updatedProject :=
              { currentProject with status := ProjectStatus.approved, updated_at := now }
            let reviewerIds :=
              (db.projectReviewers.filter (fun pr => pr.project_id == projectId)).map
                (fun pr => pr.reviewer_id)
            let db2 : DB :=
              { db1 with
                notifications := db1.notifications ++
                  [{ user_id := currentProject.proposer_id
                     type := .project_approved
                     title := "Project Approved"
                     message := "Your project \"" ++ currentProject.name ++
                       "\" has been approved."
                     project_id := some projectId
                     is_read := false }] ++
                  reviewerIds.map (fun rid =>
                    { user_id := rid
                      type := .project_approved
                      title := "Project Approved"
                      message := "The project \"" ++ currentProject.name ++
                        "\" you reviewed has been approved."
                      project_id := some projectId
                      is_read := false }) }
            let db3 : DB :=
              { db2 with
                history := db2.history ++
                  [{ project_id := projectId
                     user_id := userId
                     action := "Project Approved"
                     details := some ("Project approved by " ++
                       roleText user.role ++ ": " ++ user.name) }] }
            (db3, .ok updatedProject)

/-- `rejectProject` of approve_project.ts: role check, project load,
state check, then mutation, notifications carrying the rejection reason,
and history. No review-aggregation precondition. -/
def rejectProject (db : DB) (now : Nat) (projectId userId : Nat)
    (reason : String) : DB × Except String Project :=
  match db.users.find? (fun u => u.id == userId) with
  | none => (db, .error "User not found")
  | some user =>
    if !(user.role == .director || user.role == .system_administrator) then
      (db, .error insufficientRejectMsg)
    else
      match db.projects.find? (fun p => p.id == projectId) with
      | none => (db, .error "Project not found")
      | some currentProject =>
        if currentProject.status != .under_review then
          (db, .error ("Project cannot be rejected from status: " ++
            statusText currentProject.status))
        else
          let db1 : DB :=
            { db with
              projects := db.projects.map (fun p =>
                if p.id == projectId then
                  { p with status := .rejected, updated_at := now }
                else p) }
          let updatedProject :=
            { currentProject with status := ProjectStatus.rejected, updated_at := now }
          let reviewerIds :=
            (db.projectReviewers.filter (fun pr => pr.project_id == projectId)).map
              (fun pr => pr.reviewer_id)
          let db2 : DB :=
            { db1 with
              notifications := db1.notifications ++
                [{ user_id := currentProject.proposer_id
                   type := .project_rejected
                   title := "Project Rejected"
                   message := "Your project \"" ++ currentProject.name ++
                     "\" has been rejected. Reason: " ++ reason
                   project_id := some projectId
                   is_read := false }] ++
                reviewerIds.map (fun rid =>
                  { user_id := rid
                    type := .project_rejected
                    title := "Project Rejected"
                    message := "The project \"" ++ currentProject.name ++
                      "\" you reviewed has been rejected. Reason: " ++ reason
                    project_id := some projectId
                    is_read := false }) }
          let db3 : DB :=
            { db2 with
              history := db2.history ++
                [{ project_id := projectId
                   user_id := userId
                   action := "Project Rejected"
                   details := some ("Project rejected by " ++
                     roleText user.role ++ ": " ++ user.name ++
                     ". Reason: " ++ reason) }] }
          (db3, .ok updatedProject)

/-- `submitProject` of submit_project.ts: project load, proposer check,
draft check, then mutation, reviewer notifications (inner join of
assignments with users), and history. -/
def submitProject (db : DB) (now : Nat) (projectId userId : Nat) :
    DB × Except String Project :=
  match db.projects.find? (fun p => p.id == projectId) with
  | none => (db, .error "Project not found")
  | some project =>
    if project.proposer_id != userId then
      (db, .error "Only the project proposer can submit the project")
    else if project.status != .draft then
      (db, .error "Only draft projects can be submitted")
    else
      let db1 : DB :=
        { db with
          projects := db.projects.map (fun p =>
            if p.id == projectId then
              { p with status := .submitted, updated_at := now }
            else p) }
      let updatedProject :=
        { project with status := ProjectStatus.submitted, updated_at := now }
      let reviewers :=
        (db1.projectReviewers.filter (fun pr => pr.project_id == projectId)).filterMap
          (fun pr => db1.users.find? (fun u => u.id == pr.reviewer_id))
      let db2 : DB :=
        { db1 with
          notifications := db1.notifications ++
            reviewers.map (fun u =>
              { user_id := u.id
                type := .project_submitted
                title := "New Project Submitted for Review"
                message := "Project \"" ++ updatedProject.name ++
                  "\" has been submitted and requires your review."
                project_id := some projectId
                is_read := false }) }
      let db3 : DB :=
        { db2 with
          history := db2.history ++
            [{ project_id := projectId
               user_id := userId
               action := "Project Submitted"
               details := some ("Project \"" ++ updatedProject.name ++
                 "\" was submitted for review") }] }
      (db3, .ok updatedProject)

/-! ### Concrete fixtures used by witnesses and counterexamples -/

/-- A proposer user row. -/
def wProposer : User :=
  { id := 10, email := "prop@example.com", name := "Pat Proposer",
    role := .project_proposer, is_active := true }

/-- A reviewer user row. -/
def wReviewer : User :=
  { id := 20, email := "rev@example.com", name := "Rae Reviewer",
    role := .reviewer, is_active := true }

/-- A second reviewer user row. -/
def wReviewer2 : User :=
  { id := 21, email := "rev2@example.com", name := "Remy Reviewer",
    role := .reviewer, is_active := true }

/-- A director user row. -/
def wDirector : User :=
  { id := 30, email := "dir@example.com", name := "Dana Director",
    role := .director, is_active := true }

/-- A project row with the given status. -/
def wProject (s : ProjectStatus) : Project :=
  { id := 1, name := "Alpha", description := "desc", objective := "obj",
    estimated_cost := "100.00", target_time := "3 months", status := s,
    proposer_id := 10, created_at := 0, updated_at := 0 }

/-- A submitted review carrying an `approve` decision. -/
def wReviewApproved : Review :=
  { id := 1, project_id := 1, reviewer_id := 20, decision := some .approve,
    justification := some "fine", risk_identification := some "none",
    risk_assessment := some .low, risk_mitigation := some "n/a",
    comments := none, submitted_at := some 1, created_at := 0, updated_at := 1 }

/-- A pending (unsubmitted) review: every nullable field null. -/
def wReviewPending : Review :=
  { id := 1, project_id := 1, reviewer_id := 20, decision := none,
    justification := none, risk_identification := none,
    risk_assessment := none, risk_mitigation := none,
    comments := none, submitted_at := none, created_at := 0, updated_at := 0 }

/-- A submitted review carrying a `reject` decision. -/
def wReviewRejected : Review :=
  { wReviewApproved with decision := some .reject, justification := some "bad" }

/-- Review-submission input carrying a `reject` decision for review 1. -/
def wInputReject : SubmitReviewInput :=
  { id := 1, decision := .reject, justification := "too risky",
    risk_identification := "ri", risk_assessment := .high,
    risk_mitigation := "rm", comments := none }

/-- Review-submission input carrying an `approve` decision for review 1. -/
def wInputApprove : SubmitReviewInput :=
  { id := 1, decision := .approve, justification := "looks good",
    risk_identification := "ri", risk_assessment := .low,
    risk_mitigation := "rm", comments := none }

/-- C2 witness state: review 1 about to be submitted while review 2 of the
same project is still pending. -/
def wDbTwoReviews : DB :=
  { users := [wProposer, wReviewer, wReviewer2, wDirector],
    projects := [wProject .under_review],
    projectReviewers :=
      [{ id := 1, project_id := 1, reviewer_id := 20, assigned_at := 0 },
       { id := 2, project_id := 1, reviewer_id := 21, assigned_at := 0 }],
    reviews := [wReviewPending, { wReviewPending with id := 2, reviewer_id := 21 }],
    notifications := [], history := [] }

/-- C3 counterexample state: the project already sits in the terminal
status `approved`, with its single review submitted as `approve`. -/
def wDbTerminalApproved : DB :=
  { users := [wProposer, wReviewer, wDirector],
    projects := [wProject .approved],
    projectReviewers :=
      [{ id := 1, project_id := 1, reviewer_id := 20, assigned_at := 0 }],
    reviews := [wReviewApproved], notifications := [], history := [] }

/-- C4 counterexample state: review 1 pending, review 2 already
`submitted_at`-stamped but with a NULL decision (representable: the
`decision` column is nullable). -/
def wDbNullDecision : DB :=
  { users := [wProposer, wReviewer, wReviewer2, wDirector],
    projects := [wProject .under_review],
    projectReviewers :=
      [{ id := 1, project_id := 1, reviewer_id := 20, assigned_at := 0 },
       { id := 2, project_id := 1, reviewer_id := 21, assigned_at := 0 }],
    reviews := [wReviewPending,
                { wReviewPending with id := 2, reviewer_id := 21, submitted_at := some 2 }],
    notifications := [], history := [] }

/-- C5 counterexample state: review 1 references project 42, which does
not exist. -/
def wDbOrphanReview : DB :=
  { users := [wProposer, wReviewer],
    projects := [],
    projectReviewers := [],
    reviews := [{ wReviewPending with project_id := 42 }],
    notifications := [], history := [] }

/-- A valid `under_review` state with one assigned reviewer, used by the
approve/reject witnesses. -/
def wDbUnderReview : DB :=
  { users := [wProposer, wReviewer, wDirector],
    projects := [wProject .under_review],
    projectReviewers :=
      [{ id := 1, project_id := 1, reviewer_id := 20, assigned_at := 0 }],
    reviews := [wReviewApproved], notifications := [], history := [] }

/-- A `draft`-status state with one assigned reviewer, used by the C8
witness. -/
def wDbDraft : DB :=
  { users := [wProposer, wReviewer, wDirector],
    projects := [wProject .draft],
    projectReviewers :=
      [{ id := 1, project_id := 1, reviewer_id := 20, assigned_at := 0 }],
    reviews := [wReviewPending], notifications := [], history := [] }

/-- A state whose projects list is empty but whose users exist, used by
the C10 witness. -/
def wDbNoProject : DB :=
  { users := [wProposer, wReviewer, wDirector],
    projects := [], projectReviewers := [], reviews := [],
    notifications := [], history := [] }

/-! ### Theorems -/

/-- C1: for every complete review set of a project (every review has
non-null `submitted_at`) that contains at least one review with
`decision = reject`, the aggregation run by `submitReview` resolves the
project's status to `rejected`, regardless of how many approve or return
decisions coexist in the set. -/
theorem aggregate_any_reject_rejected (projectName : String) (rs : List Review)
    (_hc : aggregationComplete rs = true)
    (hr : ∃ r ∈ rs, r.decision = some Decision.reject) :
    (aggregateResolve projectName rs).1 = ProjectStatus.rejected := by
  obtain ⟨r, hmem, hdec⟩ := hr
  have hpos : 0 < decisionCount rs .reject := by
    have hm : r ∈ rs.filter (fun r => r.decision == some Decision.reject) :=
      List.mem_filter.mpr ⟨hmem, by simp [hdec]⟩
    exact List.length_pos.mpr (List.ne_nil_of_mem hm)
  simp only [aggregateResolve]
  rw [if_pos hpos]

/-- Witness for C1 at a two-review set holding one `approve` and one
`reject` decision, both submitted. -/
theorem aggregate_any_reject_rejected_witness :
    aggregationComplete [wReviewApproved, { wReviewRejected with id := 2 }] = true
    ∧ (∃ r ∈ [wReviewApproved, { wReviewRejected with id := 2 }],
        r.decision = some Decision.reject)
    ∧ (aggregateResolve "Alpha" [wReviewApproved, { wReviewRejected with id := 2 }]).1
        = ProjectStatus.rejected :=
  ⟨by decide, by decide,
   aggregate_any_reject_rejected "Alpha" _ (by decide) (by decide)⟩

/-- A review set containing a pending review is not complete. -/
lemma aggregationComplete_eq_false_of_mem {rs : List Review} {r : Review}
    (hmem : r ∈ rs) (hsub : r.submitted_at = none) :
    aggregationComplete rs = false := by
  have h1 : r ∈ rs.filter (fun x => x.submitted_at == none) :=
    List.mem_filter.mpr ⟨hmem, by simp [hsub]⟩
  have h2 : 0 < (rs.filter (fun x => x.submitted_at == none)).length :=
    List.length_pos.mpr (List.ne_nil_of_mem h1)
  exact beq_eq_false_iff_ne.mpr (Nat.pos_iff_ne_zero.mp h2)

/-- C2: aggregation is complete iff every review has non-null
`submitted_at`; appending one unsubmitted review to a complete set makes
it incomplete; and a `submitReview` call that leaves some other review of
the same project unsubmitted does not change any project row (in
particular the project's status). -/
theorem aggregation_completeness_rule :
    (∀ rs : List Review,
      aggregationComplete rs = true ↔ ∀ r ∈ rs, r.submitted_at ≠ none)
    ∧ (∀ (rs : List Review) (r : Review), aggregationComplete rs = true →
        r.submitted_at = none → aggregationComplete (rs ++ [r]) = false)
    ∧ (∀ (db : DB) (now : Nat) (input : SubmitReviewInput) (rv r' : Review),
        db.reviews.find? (fun r => r.id == input.id) = some rv →
        r' ∈ db.reviews → r'.id ≠ input.id → r'.project_id = rv.project_id →
        r'.submitted_at = none →
        (submitReview db now input).1.projects = db.projects) := by
  refine ⟨?_, ?_, ?_⟩
  · intro rs
    simp only [aggregationComplete, pendingReviewCount, beq_iff_eq,
      List.length_eq_zero, List.filter_eq_nil_iff]
  · intro rs r _ hr
    simp only [aggregationComplete, pendingReviewCount, List.filter_append]
    have hone : List.filter (fun x => x.submitted_at == none) [r] = [r] := by
      simp [hr]
    rw [hone]
    simp
  · intro db now input rv r' hfind hmem hne hproj hsub
    unfold submitReview
    rw [hfind]
    dsimp only
    cases hp : db.projects.find? (fun p => p.id == rv.project_id) with
    | none => rfl
    | some project =>
      dsimp only
      have hpid := List.find?_some hp
      have hr'm : r' ∈ db.reviews.map (fun r =>
          if r.id == input.id then submitReviewUpdate input now r else r) := by
        have hfix : (fun r =>
            if r.id == input.id then submitReviewUpdate input now r else r) r' = r' := by
          simp [hne]
        rw [← hfix]
        exact List.mem_map_of_mem _ hmem
      have hfilt : r' ∈ (db.reviews.map (fun r =>
          if r.id == input.id then submitReviewUpdate input now r else r)).filter
            (fun r => r.project_id == project.id) := by
        refine List.mem_filter.mpr ⟨hr'm, ?_⟩
        simp only [beq_iff_eq] at hpid ⊢
        rw [hproj, hpid]
      have hpend := aggregationComplete_eq_false_of_mem hfilt hsub
      rw [hpend]
      rfl

/-- Witness for C2: review 2 of the witness state is still pending, so
submitting review 1 leaves every project row unchanged. -/
theorem aggregation_completeness_rule_witness :
    (submitReview wDbTwoReviews 5 wInputApprove).1.projects = wDbTwoReviews.projects :=
  aggregation_completeness_rule.2.2 wDbTwoReviews 5 wInputApprove
    wReviewPending { wReviewPending with id := 2, reviewer_id := 21 }
    (by decide) (by decide) (by decide) (by decide) (by decide)

/-- C3 counterexample: the project of `wDbTerminalApproved` sits in the
terminal status `approved`, yet re-submitting its already-submitted
review with a `reject` decision succeeds (no `InvalidState` failure) and
changes the project's status to `rejected`. -/
theorem terminal_status_changed_by_submitReview_cex :
    (wDbTerminalApproved.projects.find? (fun p => p.id == 1)).map Project.status
      = some ProjectStatus.approved
    ∧ ((submitReview wDbTerminalApproved 7 wInputReject).1.projects.find?
        (fun p => p.id == 1)).map Project.status = some ProjectStatus.rejected
    ∧ ∃ r, (submitReview wDbTerminalApproved 7 wInputReject).2 = .ok r := by
  refine ⟨by decide, by decide, ⟨_, rfl⟩⟩

/-- C3 amended: once a project reaches a terminal status (`approved`,
`rejected`, or `returned`), `submitProject`, `approveProject`, and
`rejectProject` cannot change it — each fails with an error and leaves
the state untouched — but `submitReview` has no project-state
precondition, so re-submitting a review can still change a terminal
project's status (see the counterexample). -/
theorem terminal_status_stable_without_submitReview
    (db : DB) (now pid uid : Nat) (reason : String) (p : Project)
    (hp : db.projects.find? (fun q => q.id == pid) = some p)
    (ht : p.status = .approved ∨ p.status = .rejected ∨ p.status = .returned) :
    (submitProject db now pid uid = (db, .error "Only the project proposer can submit the project")
      ∨ submitProject db now pid uid = (db, .error "Only draft projects can be submitted"))
    ∧ ((approveProject db now pid uid).1 = db
        ∧ ∃ e, (approveProject db now pid uid).2 = .error e)
    ∧ ((rejectProject db now pid uid reason).1 = db
        ∧ ∃ e, (rejectProject db now pid uid reason).2 = .error e) := by
  have hnd : (p.status != ProjectStatus.draft) = true := by
    rcases ht with h | h | h <;> rw [h] <;> rfl
  have hnu : (p.status != ProjectStatus.under_review) = true := by
    rcases ht with h | h | h <;> rw [h] <;> rfl
  refine ⟨?_, ?_, ?_⟩
  · unfold submitProject
    rw [hp]
    dsimp only
    by_cases hprop : (p.proposer_id != uid) = true
    · rw [if_pos hprop]
      exact Or.inl rfl
    · rw [if_neg hprop, if_pos hnd]
      exact Or.inr rfl
  · unfold approveProject
    cases hu : db.users.find? (fun u => u.id == uid) with
    | none => exact ⟨rfl, _, rfl⟩
    | some user =>
      dsimp only
      by_cases hrole : (!(user.role == Role.director
          || user.role == Role.system_administrator)) = true
      · rw [if_pos hrole]
        exact ⟨rfl, _, rfl⟩
      · rw [if_neg hrole, hp]
        dsimp only
        rw [if_pos hnu]
        exact ⟨rfl, _, rfl⟩
  · unfold rejectProject
    cases hu : db.users.find? (fun u => u.id == uid) with
    | none => exact ⟨rfl, _, rfl⟩
    | some user =>
      dsimp only
      by_cases hrole : (!(user.role == Role.director
          || user.role == Role.system_administrator)) = true
      · rw [if_pos hrole]
        exact ⟨rfl, _, rfl⟩
      · rw [if_neg hrole, hp]
        dsimp only
        rw [if_pos hnu]
        exact ⟨rfl, _, rfl⟩

/-- Witness for C3's amended theorem at the concrete terminal state
`wDbTerminalApproved`, with the director as caller. -/
theorem terminal_status_stable_without_submitReview_witness :
    (submitProject wDbTerminalApproved 7 1 30
        = (wDbTerminalApproved, .error "Only the project proposer can submit the project")
      ∨ submitProject wDbTerminalApproved 7 1 30
        = (wDbTerminalApproved, .error "Only draft projects can be submitted"))
    ∧ ((approveProject wDbTerminalApproved 7 1 30).1 = wDbTerminalApproved
        ∧ ∃ e, (approveProject wDbTerminalApproved 7 1 30).2 = .error e)
    ∧ ((rejectProject wDbTerminalApproved 7 1 30 "nope").1 = wDbTerminalApproved
        ∧ ∃ e, (rejectProject wDbTerminalApproved 7 1 30 "nope").2 = .error e) :=
  terminal_status_stable_without_submitReview wDbTerminalApproved 7 1 30 "nope"
    (wProject .approved) (by decide) (Or.inl rfl)

/-- C4 counterexample: in `wDbNullDecision`, submitting review 1 with
`approve` completes the round (review 2 is `submitted_at`-stamped with^
a NULL decision); not every review carries `decision = approve`, yet the
aggregation resolves the project to `approved` with an empty notification
message and the call succeeds — no data-integrity error is surfaced. -/
theorem null_decision_silently_approved_cex :
    (¬ ∀ r ∈ (submitReview wDbNullDecision 9 wInputApprove).1.reviews.filter
        (fun r => r.project_id == 1), r.decision = some Decision.approve)
    ∧ ((submitReview wDbNullDecision 9 wInputApprove).1.projects.find?
        (fun p => p.id == 1)).map Project.status = some ProjectStatus.approved
    ∧ (∃ r, (submitReview wDbNullDecision 9 wInputApprove).2 = .ok r)
    ∧ aggregateResolve "Alpha"
        ((submitReview wDbNullDecision 9 wInputApprove).1.reviews.filter
          (fun r => r.project_id == 1))
        = (ProjectStatus.approved, "") := by
  refine ⟨by decide, by decide, ⟨_, rfl⟩, by decide⟩

/-- C4 amended: when `submitReview` finds the round complete with zero
`reject` and zero `return` decisions, the aggregation resolves the
project to `approved` unconditionally (the `'approved'` default), even
when not every review carries `decision = approve`; in that residual case
the result is `approved` with an empty notification message, silently,
rather than a surfaced data-integrity error. -/
theorem aggregate_no_reject_no_return_approved (projectName : String)
    (rs : List Review)
    (_hc : aggregationComplete rs = true)
    (hrej : decisionCount rs .reject = 0)
    (hret : decisionCount rs .ret = 0) :
    (aggregateResolve projectName rs).1 = ProjectStatus.approved
    ∧ (decisionCount rs .approve ≠ rs.length →
        aggregateResolve projectName rs = (ProjectStatus.approved, "")) := by
  constructor
  · simp only [aggregateResolve, hrej, hret]
    norm_num
    split <;> rfl
  · intro hne
    simp only [aggregateResolve, hrej, hret]
    norm_num
    exact fun h => absurd h hne

/-- Witness for C4's amended theorem at a one-review set whose single
review is submitted but carries a NULL decision. -/
theorem aggregate_no_reject_no_return_approved_witness :
    (aggregateResolve "Alpha" [{ wReviewPending with submitted_at := some 2 }]).1
      = ProjectStatus.approved
    ∧ (decisionCount [{ wReviewPending with submitted_at := some 2 }] .approve
          ≠ [{ wReviewPending with submitted_at := some 2 }].length →
        aggregateResolve "Alpha" [{ wReviewPending with submitted_at := some 2 }]
          = (ProjectStatus.approved, "")) :=
  aggregate_no_reject_no_return_approved "Alpha" _ (by decide) (by decide) (by decide)

/-- C5 counterexample: in `wDbOrphanReview` the review exists but its
project (id 42) does not; `submitReview` fails with the project-NotFound
error, yet the review record has already been mutated — the failure is
not free of partial mutation. -/
theorem project_missing_partial_mutation_cex :
    (submitReview wDbOrphanReview 4 wInputReject).2
      = .error "Project with id 42 not found"
    ∧ (submitReview wDbOrphanReview 4 wInputReject).1.reviews
        ≠ wDbOrphanReview.reviews := by
  exact ⟨rfl, by decide⟩

/-- C5 amended: `submitProject`, `approveProject`, and `rejectProject`
perform every validation before any mutation, so any error from them
leaves the state unchanged; `submitReview` checks only that the review
exists before mutating it (review-NotFound leaves the state unchanged),
but its project lookup runs after the review update, so a project-load
failure surfaces an error with the review record already updated. -/
theorem validation_failure_mutation_amended :
    (∀ (db : DB) (now pid uid : Nat) (e : String),
      (submitProject db now pid uid).2 = .error e →
      (submitProject db now pid uid).1 = db)
    ∧ (∀ (db : DB) (now pid uid : Nat) (e : String),
      (approveProject db now pid uid).2 = .error e →
      (approveProject db now pid uid).1 = db)
    ∧ (∀ (db : DB) (now pid uid : Nat) (reason e : String),
      (rejectProject db now pid uid reason).2 = .error e →
      (rejectProject db now pid uid reason).1 = db)
    ∧ (∀ (db : DB) (now : Nat) (input : SubmitReviewInput),
      db.reviews.find? (fun r => r.id == input.id) = none →
      (submitReview db now input).1 = db)
    ∧ (∀ (db : DB) (now : Nat) (input : SubmitReviewInput) (rv : Review),
      db.reviews.find? (fun r => r.id == input.id) = some rv →
      db.projects.find? (fun p => p.id == rv.project_id) = none →
      (submitReview db now input).1.reviews
        = db.reviews.map (fun r =>
            if r.id == input.id then submitReviewUpdate input now r else r)
      ∧ ∃ e, (submitReview db now input).2 = .error e) := by
  refine ⟨?_, ?_, ?_, ?_, ?_⟩
  · intro db now pid uid e
    unfold submitProject
    split
    · intro _; rfl
    · split
      · intro _; rfl
      · split
        · intro _; rfl
        · intro h; simp at h
  · intro db now pid uid e
    unfold approveProject
    dsimp only
    split
    · intro _; rfl
    · split
      · intro _; rfl
      · split
        · intro _; rfl
        · split
          · intro _; rfl
          · split
            · intro _; rfl
            · split
              · intro _; rfl
              · split
                · intro _; rfl
                · split
                  · intro _; rfl
                  · intro h; simp at h
  · intro db now pid uid reason e
    unfold rejectProject
    split
    · intro _; rfl
    · split
      · intro _; rfl
      · split
        · intro _; rfl
        · split
          · intro _; rfl
          · intro h; simp at h
  · intro db now input hnone
    unfold submitReview
    rw [hnone]
  · intro db now input rv hfind hproj
    unfold submitReview
    rw [hfind]
    dsimp only
    rw [hproj]
    exact ⟨rfl, _, rfl⟩

/-- Witness for C5's amended theorem at `wDbOrphanReview`: the failing
call leaves the review updated and surfaces an error. -/
theorem validation_failure_mutation_amended_witness :
    (submitReview wDbOrphanReview 4 wInputReject).1.reviews
      = wDbOrphanReview.reviews.map (fun r =>
          if r.id == wInputReject.id then submitReviewUpdate wInputReject 4 r else r)
    ∧ ∃ e, (submitReview wDbOrphanReview 4 wInputReject).2 = .error e :=
  validation_failure_mutation_amended.2.2.2.2 wDbOrphanReview 4 wInputReject
    { wReviewPending with project_id := 42 } (by decide) (by decide)

/-- The invalid-state message of `approveProject` differs from its
insufficient-permissions message, whatever the status. -/
lemma approveInvalidMsg_ne (s : ProjectStatus) :
    "Project cannot be approved from status: " ++ statusText s
      ≠ insufficientApproveMsg := by
  cases s <;> decide

/-- The invalid-state message of `rejectProject` differs from its
insufficient-permissions message, whatever the status. -/
lemma rejectInvalidMsg_ne (s : ProjectStatus) :
    "Project cannot be rejected from status: " ++ statusText s
      ≠ insufficientRejectMsg := by
  cases s <;> decide

/-- A caller whose role is neither director nor system_administrator is
stopped by `approveProject`'s first check, whatever the rest of the state. -/
lemma approveProject_badrole {db : DB} {now pid uid : Nat} {u : User}
    (hu : db.users.find? (fun x => x.id == uid) = some u)
    (h1 : u.role ≠ .director) (h2 : u.role ≠ .system_administrator) :
    approveProject db now pid uid = (db, .error insufficientApproveMsg) := by
  have hc : (!(u.role == Role.director
      || u.role == Role.system_administrator)) = true := by
    simp [h1, h2]
  unfold approveProject
  rw [hu]
  dsimp only
  rw [if_pos hc]

/-- A caller whose role is neither director nor system_administrator is
stopped by `rejectProject`'s first check, whatever the rest of the state. -/
lemma rejectProject_badrole {db : DB} {now pid uid : Nat} {reason : String}
    {u : User}
    (hu : db.users.find? (fun x => x.id == uid) = some u)
    (h1 : u.role ≠ .director) (h2 : u.role ≠ .system_administrator) :
    rejectProject db now pid uid reason = (db, .error insufficientRejectMsg) := by
  have hc : (!(u.role == Role.director
      || u.role == Role.system_administrator)) = true := by
    simp [h1, h2]
  unfold rejectProject
  rw [hu]
  dsimp only
  rw [if_pos hc]

/-- A director or system_administrator caller never receives
`approveProject`'s insufficient-permissions error. -/
lemma approveProject_goodrole_not_insufficient {db : DB} {now pid uid : Nat}
    {u : User}
    (hu : db.users.find? (fun x => x.id == uid) = some u)
    (hrole : u.role = .director ∨ u.role = .system_administrator) :
    (approveProject db now pid uid).2 ≠ .error insufficientApproveMsg := by
  have hc : (!(u.role == Role.director
      || u.role == Role.system_administrator)) = false := by
    rcases hrole with h | h <;> simp [h]
  unfold approveProject
  rw [hu]
  dsimp only
  rw [hc]
  simp only [Bool.false_eq_true, if_false]
  split
  · simp [insufficientApproveMsg]
  · split
    · intro h
      dsimp only at h
      injection h with h'
      exact approveInvalidMsg_ne _ h'
    · split
      · simp [insufficientApproveMsg]
      · split
        · simp [insufficientApproveMsg]
        · split
          · simp [insufficientApproveMsg]
          · split
            · simp [insufficientApproveMsg]
            · simp

/-- A director or system_administrator caller never receives
`rejectProject`'s insufficient-permissions error. -/
lemma rejectProject_goodrole_not_insufficient {db : DB} {now pid uid : Nat}
    {reason : String} {u : User}
    (hu : db.users.find? (fun x => x.id == uid) = some u)
    (hrole : u.role = .director ∨ u.role = .system_administrator) :
    (rejectProject db now pid uid reason).2 ≠ .error insufficientRejectMsg := by
  have hc : (!(u.role == Role.director
      || u.role == Role.system_administrator)) = false := by
    rcases hrole with h | h <;> simp [h]
  unfold rejectProject
  rw [hu]
  dsimp only
  rw [hc]
  simp only [Bool.false_eq_true, if_false]
  split
  · simp [insufficientRejectMsg]
  · split
    · intro h
      dsimp only at h
      injection h with h'
      exact rejectInvalidMsg_ne _ h'
    · simp

/-- C6: `approveProject` and `rejectProject` fail with the Forbidden
(insufficient-permissions) error for every existing caller whose role is
neither director nor system_administrator, regardless of the project's
state, and callers with role director or system_administrator pass the
role check in both operations (never receive that error). -/
theorem approve_reject_role_gate (db : DB) (now pid uid : Nat) (reason : String)
    (u : User) (hu : db.users.find? (fun x => x.id == uid) = some u) :
    ((u.role ≠ .director ∧ u.role ≠ .system_administrator) →
      approveProject db now pid uid = (db, .error insufficientApproveMsg)
      ∧ rejectProject db now pid uid reason = (db, .error insufficientRejectMsg))
    ∧ ((u.role = .director ∨ u.role = .system_administrator) →
      (approveProject db now pid uid).2 ≠ .error insufficientApproveMsg
      ∧ (rejectProject db now pid uid reason).2 ≠ .error insufficientRejectMsg) := by
  constructor
  · intro hbad
    exact ⟨approveProject_badrole hu hbad.1 hbad.2,
           rejectProject_badrole hu hbad.1 hbad.2⟩
  · intro hrole
    exact ⟨approveProject_goodrole_not_insufficient hu hrole,
           rejectProject_goodrole_not_insufficient hu hrole⟩

/-- Witness for C6: the reviewer (id 20) is rejected by the role check of
both operations; the director (id 30) passes it in both. -/
theorem approve_reject_role_gate_witness :
    (approveProject wDbUnderReview 3 1 20
        = (wDbUnderReview, .error insufficientApproveMsg)
      ∧ rejectProject wDbUnderReview 3 1 20 "r"
        = (wDbUnderReview, .error insufficientRejectMsg))
    ∧ ((approveProject wDbUnderReview 3 1 30).2 ≠ .error insufficientApproveMsg
      ∧ (rejectProject wDbUnderReview 3 1 30 "r").2 ≠ .error insufficientRejectMsg) :=
  ⟨(approve_reject_role_gate wDbUnderReview 3 1 20 "r" wReviewer (by decide)).1
      ⟨by decide, by decide⟩,
   (approve_reject_role_gate wDbUnderReview 3 1 30 "r" wDirector (by decide)).2
      (Or.inl rfl)⟩

/-- C7: for every project in `under_review` status and every caller who
is a director or system_administrator, `rejectProject` succeeds, sets the
project's status to `rejected`, and every notification it creates (for
the proposer and for each assigned reviewer) contains the literal reason
string passed in. -/
theorem rejectProject_success_reason_in_notifications
    (db : DB) (now pid uid : Nat) (reason : String) (u : User) (p : Project)
    (hu : db.users.find? (fun x => x.id == uid) = some u)
    (hrole : u.role = .director ∨ u.role = .system_administrator)
    (hp : db.projects.find? (fun q => q.id == pid) = some p)
    (hs : p.status = .under_review) :
    (∃ pr, (rejectProject db now pid uid reason).2 = .ok pr)
    ∧ (rejectProject db now pid uid reason).1.projects
        = db.projects.map (fun q =>
            if q.id == pid then { q with status := .rejected, updated_at := now }
            else q)
    ∧ ∃ new, (rejectProject db now pid uid reason).1.notifications
          = db.notifications ++ new
        ∧ new ≠ []
        ∧ ∀ n ∈ new, reason.data <:+: n.message.data := by
  have hc : (!(u.role == Role.director
      || u.role == Role.system_administrator)) = false := by
    rcases hrole with h | h <;> simp [h]
  have hst : (p.status != ProjectStatus.under_review) = false := by
    rw [hs]; rfl
  unfold rejectProject
  rw [hu]
  dsimp only
  rw [hc, if_neg (show ¬ ((false : Bool) = true) by simp)]
  rw [hp]
  dsimp only
  rw [hst, if_neg (show ¬ ((false : Bool) = true) by simp)]
  refine ⟨⟨_, rfl⟩, rfl, ?_⟩
  refine ⟨_, (List.append_assoc _ _ _), ?_, ?_⟩
  · simp
  · intro n hn
    rcases List.mem_append.mp hn with hn | hn
    · rcases List.mem_singleton.mp hn with rfl
      exact (List.suffix_append _ reason.data).isInfix
    · rcases List.mem_map.mp hn with ⟨rid, _, rfl⟩
      exact (List.suffix_append _ reason.data).isInfix

/-- Witness for C7 at `wDbUnderReview` with the director calling and the
reason string of spec Scenario E. -/
theorem rejectProject_success_reason_in_notifications_witness :
    (∃ pr, (rejectProject wDbUnderReview 3 1 30 "Budget concerns").2 = .ok pr)
    ∧ (rejectProject wDbUnderReview 3 1 30 "Budget concerns").1.projects
        = wDbUnderReview.projects.map (fun q =>
            if q.id == 1 then { q with status := .rejected, updated_at := 3 }
            else q)
    ∧ ∃ new, (rejectProject wDbUnderReview 3 1 30 "Budget concerns").1.notifications
          = wDbUnderReview.notifications ++ new
        ∧ new ≠ []
        ∧ ∀ n ∈ new, "Budget concerns".data <:+: n.message.data :=
  rejectProject_success_reason_in_notifications wDbUnderReview 3 1 30
    "Budget concerns" wDirector (wProject .under_review)
    (by decide) (Or.inl rfl) (by decide) rfl

/-- C8: `approveProject` called by a director or system_administrator on
an existing project whose status is not `under_review` fails with the
InvalidState error whose message names the project's current status, and
the state (hence the project's status) is unchanged. -/
theorem approveProject_invalid_state
    (db : DB) (now pid uid : Nat) (u : User) (p : Project)
    (hu : db.users.find? (fun x => x.id == uid) = some u)
    (hrole : u.role = .director ∨ u.role = .system_administrator)
    (hp : db.projects.find? (fun q => q.id == pid) = some p)
    (hs : p.status ≠ .under_review) :
    approveProject db now pid uid
      = (db, .error ("Project cannot be approved from status: " ++
          statusText p.status))
    ∧ (statusText p.status).data
        <:+: ("Project cannot be approved from status: " ++
          statusText p.status).data := by
  have hc : (!(u.role == Role.director
      || u.role == Role.system_administrator)) = false := by
    rcases hrole with h | h <;> simp [h]
  have hst : (p.status != ProjectStatus.under_review) = true := by
    simpa using hs
  constructor
  · unfold approveProject
    rw [hu]
    dsimp only
    rw [hc]
    simp only [Bool.false_eq_true, if_false]
    rw [hp]
    dsimp only
    rw [if_pos hst]
  · exact (List.suffix_append _ _).isInfix

/-- Witness for C8 at `wDbDraft`: the director approving a `draft`
project gets the InvalidState error naming status `draft`. -/
theorem approveProject_invalid_state_witness :
    approveProject wDbDraft 3 1 30
      = (wDbDraft, .error ("Project cannot be approved from status: " ++
          statusText ProjectStatus.draft))
    ∧ (statusText ProjectStatus.draft).data
        <:+: ("Project cannot be approved from status: " ++
          statusText ProjectStatus.draft).data :=
  approveProject_invalid_state wDbDraft 3 1 30 wDirector (wProject .draft)
    (by decide) (Or.inl rfl) (by decide) (by decide)

/-- The project-NotFound error of `approveProject` is reachable only
after the caller was found and passed the role check. -/
lemma approveProject_projectNotFound_inv {db : DB} {now pid uid : Nat}
    (h : (approveProject db now pid uid).2 = .error "Project not found") :
    ∃ u, db.users.find? (fun x => x.id == uid) = some u
      ∧ (u.role = .director ∨ u.role = .system_administrator) := by
  cases hu : db.users.find? (fun x => x.id == uid) with
  | none =>
    exfalso
    unfold approveProject at h
    rw [hu] at h
    dsimp only at h
    injection h with h'
    exact absurd h' (by decide)
  | some u =>
    refine ⟨u, rfl, ?_⟩
    by_cases hr1 : u.role = .director
    · exact Or.inl hr1
    by_cases hr2 : u.role = .system_administrator
    · exact Or.inr hr2
    exfalso
    have hbad := @approveProject_badrole db now pid uid u hu hr1 hr2
    rw [hbad] at h
    dsimp only at h
    injection h with h'
    exact absurd h' (by decide)

/-- The project-NotFound error of `rejectProject` is reachable only
after the caller was found and passed the role check. -/
lemma rejectProject_projectNotFound_inv {db : DB} {now pid uid : Nat}
    {reason : String}
    (h : (rejectProject db now pid uid reason).2 = .error "Project not found") :
    ∃ u, db.users.find? (fun x => x.id == uid) = some u
      ∧ (u.role = .director ∨ u.role = .system_administrator) := by
  cases hu : db.users.find? (fun x => x.id == uid) with
  | none =>
    exfalso
    unfold rejectProject at h
    rw [hu] at h
    dsimp only at h
    injection h with h'
    exact absurd h' (by decide)
  | some u =>
    refine ⟨u, rfl, ?_⟩
    by_cases hr1 : u.role = .director
    · exact Or.inl hr1
    by_cases hr2 : u.role = .system_administrator
    · exact Or.inr hr2
    exfalso
    have hbad := @rejectProject_badrole db now pid uid reason u hu hr1 hr2
    rw [hbad] at h
    dsimp only at h
    injection h with h'
    exact absurd h' (by decide)

/-- C9: `submitProject` called by any user who is not the project's
proposer fails with the Forbidden error and performs no mutation: the
state is returned unchanged, so the project's status remains `draft` and
zero notifications and zero history entries are created. -/
theorem submitProject_not_proposer (db : DB) (now pid uid : Nat) (p : Project)
    (hp : db.projects.find? (fun q => q.id == pid) = some p)
    (hne : p.proposer_id ≠ uid) :
    submitProject db now pid uid
      = (db, .error "Only the project proposer can submit the project")
    ∧ (submitProject db now pid uid).1.notifications = db.notifications
    ∧ (submitProject db now pid uid).1.history = db.history
    ∧ (submitProject db now pid uid).1.projects = db.projects := by
  have hb : (p.proposer_id != uid) = true := by simpa using hne
  have h1 : submitProject db now pid uid
      = (db, .error "Only the project proposer can submit the project") := by
    unfold submitProject
    rw [hp]
    dsimp only
    rw [if_pos hb]
  exact ⟨h1, by rw [h1], by rw [h1], by rw [h1]⟩

/-- Witness for C9: the reviewer (id 20) is not the proposer (id 10) of
the draft project, so the call fails and mutates nothing. -/
theorem submitProject_not_proposer_witness :
    submitProject wDbDraft 3 1 20
      = (wDbDraft, .error "Only the project proposer can submit the project")
    ∧ (submitProject wDbDraft 3 1 20).1.notifications = wDbDraft.notifications
    ∧ (submitProject wDbDraft 3 1 20).1.history = wDbDraft.history
    ∧ (submitProject wDbDraft 3 1 20).1.projects = wDbDraft.projects :=
  submitProject_not_proposer wDbDraft 3 1 20 (wProject .draft)
    (by decide) (by decide)

/-- C10: `approveProject` and `rejectProject` check the caller's role
before loading the project — an existing caller with a non-privileged
role gets the Forbidden error even when the referenced project does not
exist — and, conversely, whenever either operation returns the
project-NotFound error the caller existed and was a director or
system_administrator. -/
theorem role_checked_before_project_load
    (db : DB) (now pid uid : Nat) (reason : String) (u : User)
    (hu : db.users.find? (fun x => x.id == uid) = some u)
    (h1 : u.role ≠ .director) (h2 : u.role ≠ .system_administrator)
    (_hnp : db.projects.find? (fun q => q.id == pid) = none) :
    (approveProject db now pid uid).2 = .error insufficientApproveMsg
    ∧ (rejectProject db now pid uid reason).2 = .error insufficientRejectMsg
    ∧ (∀ (db2 : DB) (uid2 : Nat),
        (approveProject db2 now pid uid2).2 = .error "Project not found" →
        ∃ u2, db2.users.find? (fun x => x.id == uid2) = some u2
          ∧ (u2.role = .director ∨ u2.role = .system_administrator))
    ∧ (∀ (db2 : DB) (uid2 : Nat) (reason2 : String),
        (rejectProject db2 now pid uid2 reason2).2 = .error "Project not found" →
        ∃ u2, db2.users.find? (fun x => x.id == uid2) = some u2
          ∧ (u2.role = .director ∨ u2.role = .system_administrator)) := by
  refine ⟨?_, ?_, ?_, ?_⟩
  · rw [approveProject_badrole hu h1 h2]
  · rw [rejectProject_badrole hu h1 h2]
  · intro db2 uid2 h
    exact approveProject_projectNotFound_inv h
  · intro db2 uid2 reason2 h
    exact rejectProject_projectNotFound_inv h

/-- Witness for C10: the reviewer (id 20) calling on `wDbNoProject`
(whose projects table is empty) still gets the Forbidden error from both
operations, not NotFound. -/
theorem role_checked_before_project_load_witness :
    (approveProject wDbNoProject 3 1 20).2 = .error insufficientApproveMsg
    ∧ (rejectProject wDbNoProject 3 1 20 "r").2 = .error insufficientRejectMsg :=
  let t := role_checked_before_project_load wDbNoProject 3 1 20 "r" wReviewer
    (by decide) (by decide) (by decide) (by decide)
  ⟨t.1, t.2.1⟩

end ProjectRiskApproval
